import Mathlib

/-!
# Verification of the collabowith URL verification/reconciliation engine

A shallow embedding, in Lean 4, of the verification-and-reconciliation logic of
the `scraper` scripts: structural URL classification (`clean_urls.py`,
`retry_pending_urls.py`), HTTP check control flow (`check_http`,
`http_check_once`, `retry_check`), dataset merging (`merge_kr_cases.py`,
`retry_pending_urls.py`), the per-entry reconciliation of check results
(`clean_urls.clean_data`), the simulated-verification paths (`glm_verify.py`,
`final_verify.py`) and the file-write order of the saving code.

Python strings are embedded as `String`, Python `None`/exceptions as `Option`,
dataclasses/dicts as structures.  Network responses are passed in explicitly as
oracle values, so an HTTP check becomes a pure function of the responses it
would observe.  Behaviour of third-party library calls (`urllib.parse.urlparse`,
`requests.Request(...).prepare()`) is modelled by small Lean functions whose doc
comments state what they model.
-/

namespace Collabowith

/-- `s.toLower`, computed on the character list (kernel-reducible). -/
def lowerStr (s : String) : String :=
  String.mk (s.toList.map Char.toLower)

/-- `s.startsWith pre`, computed on the character list. -/
def startsWithStr (pre s : String) : Bool :=
  pre.toList.isPrefixOf s.toList

/-- `s.endsWith suf`, computed on the character list. -/
def endsWithStr (suf s : String) : Bool :=
  suf.toList.reverse.isPrefixOf s.toList.reverse

/-- `s.dropRight n`, computed on the character list. -/
def dropRightStr (s : String) (n : Nat) : String :=
  String.mk (s.toList.take (s.toList.length - n))

/-- Python's `str.lstrip()` (no arguments): drop leading whitespace. -/
def trimLeftStr (s : String) : String :=
  String.mk (s.toList.dropWhile Char.isWhitespace)

/-- Does `pat` occur as a prefix of some suffix of `l`? -/
def containsSubAux (pat : List Char) : List Char → Bool
  | [] => pat.isEmpty
  | c :: t => pat.isPrefixOf (c :: t) || containsSubAux pat t

/-- `containsSubstr pat s`: does `pat` occur as a contiguous substring of `s`?
Models Python's `pat in s` for strings. -/
def containsSubstr (pat s : String) : Bool :=
  containsSubAux pat.toList s.toList

/-- Valid characters of a URL scheme token (`urllib.parse`): letters, digits,
`+`, `-`, `.`. -/
def isSchemeChar (c : Char) : Bool :=
  c.isAlphanum || c == '+' || c == '-' || c == '.'

/-- Model of `urllib.parse.urlparse` scheme splitting: `"scheme:rest"` splits off
a scheme when the part before the first `:` is a non-empty token of scheme
characters starting with a letter; the scheme is lowercased.  Otherwise the
scheme is empty and the whole string is the remainder. -/
def splitScheme (s : String) : String × String :=
  let l := s.toList
  let pre := l.takeWhile (fun c => c != ':')
  let post := l.dropWhile (fun c => c != ':')
  match post with
  | ':' :: rest =>
    if !pre.isEmpty && pre.all isSchemeChar && (pre.headD 'a').isAlpha then
      (String.mk (pre.map Char.toLower), String.mk rest)
    else ("", s)
  | _ => ("", s)

/-- The pieces of a URL that the scraper code reads back out of
`urllib.parse.urlparse`: scheme, network location, path (up to the first `?` or
`#`) and the remaining query/fragment text. -/
structure UrlParts where
  scheme : String
  netloc : String
  pathPart : String
  tailPart : String
deriving Repr, DecidableEq

/-- Model of `urllib.parse.urlparse` splitting (scheme, netloc, path, rest).
The netloc is present only after a `//`; the path stops at the first `?` or
`#`. -/
def splitUrl (s : String) : UrlParts :=
  let (scheme, rest) := splitScheme s
  let l := rest.toList
  if l.take 2 = ['/', '/'] then
    let after := l.drop 2
    let netloc := after.takeWhile (fun c => c != '/' && c != '?' && c != '#')
    let rem := after.dropWhile (fun c => c != '/' && c != '?' && c != '#')
    ⟨scheme, String.mk netloc,
      String.mk (rem.takeWhile (fun c => c != '?' && c != '#')),
      String.mk (rem.dropWhile (fun c => c != '?' && c != '#'))⟩
  else
    ⟨scheme, "",
      String.mk (l.takeWhile (fun c => c != '?' && c != '#')),
      String.mk (l.dropWhile (fun c => c != '?' && c != '#'))⟩

/-- Model of `urllib.parse.urlparse`.  Python raises `ValueError` ("Invalid IPv6
URL") when exactly one of `[`, `]` occurs in the netloc; that exception is
modelled as `none`. -/
def urlparse (s : String) : Option UrlParts :=
  let parts := splitUrl s
  if parts.netloc.toList.contains '[' != parts.netloc.toList.contains ']' then none
  else some parts

/-- Model of `urlparse(x).hostname or ""`: the netloc after the last `@` and
before the `:` port separator, lowercased; `""` when absent. -/
def hostnameOfNetloc (netloc : String) : String :=
  let l := netloc.toList
  let afterAt := (l.reverse.takeWhile (fun c => c != '@')).reverse
  String.mk ((afterAt.takeWhile (fun c => c != ':')).map Char.toLower)

/-- Model of `requests.Request("GET", url).prepare().url` for the URL shapes this
code feeds it.  Leading whitespace is stripped; a URL containing `:` whose
lowercased form does not start with `"http"` is returned unchanged (the
`requests` short-circuit for non-HTTP schemes); otherwise the URL is parsed —
`none` models the `MissingSchema`/`InvalidURL` exceptions (no scheme, empty or
malformed host) — the scheme is lowercased, an empty path becomes `"/"`, and
the URL is reassembled. -/
def parse_url (url : String) : Option String :=
  let u := trimLeftStr url
  if u.toList.contains ':' && !(startsWithStr "http" (lowerStr u)) then some u
  else
    match urlparse u with
    | none => none
    | some parts =>
      if parts.scheme = "" then none
      else
        let host := hostnameOfNetloc parts.netloc
        if host = "" then none
        else if startsWithStr "*" host || startsWithStr "." host then none
        else
          let path := if parts.pathPart = "" then "/" else parts.pathPart
          some (parts.scheme ++ "://" ++ parts.netloc ++ path ++ parts.tailPart)

/-- `BAD_DOMAINS` from `clean_urls.py` (a set; only `any`-membership is used). -/
def BAD_DOMAINS : List String :=
  ["community.", "support.", "help.", "forum.", "reddit.com",
   "news.ycombinator.com", "quora.com", "medium.com", "linkedin.com"]

/-- Model of the regex `(^|\.)dom$` applied to a lowercased hostname. -/
def hostPatternMatch (dom host : String) : Bool :=
  host == dom || endsWithStr ("." ++ dom) host

/-- `BAD_HOST_PATTERNS` from `clean_urls.py`: `(^|\.)monday\.com\.com$`,
`(^|\.)microsoftteams\.com$`, `(^|\.)jira\.com$`, `(^|\.)confluence\.com$`
(`re.search`, `re.IGNORECASE`; the hostname is already lowercased). -/
def matchesBadHostPattern (host : String) : Bool :=
  hostPatternMatch "monday.com.com" host ||
  hostPatternMatch "microsoftteams.com" host ||
  hostPatternMatch "jira.com" host ||
  hostPatternMatch "confluence.com" host

/-- Model of the regex `/intl/[^/]+/customer-stories/?$` (`re.search`; the
caller lowercases the path for `re.IGNORECASE`). -/
def intlCustomerStoriesEnd (p : String) : Bool :=
  let p1 := if endsWithStr "/" p then dropRightStr p 1 else p
  if endsWithStr "/customer-stories" p1 then
    let q := (dropRightStr p1 17).toList.reverse
    let seg := q.takeWhile (fun c => c != '/')
    !seg.isEmpty && ((q.drop seg.length).take 6 == "/intl/".toList.reverse)
  else false

/-- Model of the `ROOT_PATTERNS` regex list of `clean_urls.py` /
`retry_pending_urls.py`, each applied with `re.search` and `re.IGNORECASE` to a
URL path. -/
def matchesRootPattern (path : String) : Bool :=
  let p := lowerStr path
  endsWithStr "/customers" p || endsWithStr "/customers/" p ||
  endsWithStr "/customer-stories" p || endsWithStr "/customer-stories/" p ||
  containsSubstr "/customers/search" p ||
  endsWithStr "/en/customer-stories" p || endsWithStr "/en/customer-stories/" p ||
  intlCustomerStoriesEnd p ||
  endsWithStr "/case-studies" p || endsWithStr "/case-studies/" p ||
  endsWithStr "/success-stories.html" p

namespace CleanUrls

/-- `clean_urls.static_reject_reason`.  The `parse_url` failure (`None` in
Python, an exception caught inside `parse_url`) and a prepared URL not starting
with `http://`/`https://` both yield `invalid_url_format`.  The hostname is
read with `urlparse(req.url).hostname or ""`; on a prepared `http(s)` URL that
call cannot raise, so it is modelled directly by
`hostnameOfNetloc (splitUrl prepared).netloc`. -/
def static_reject_reason (url : String) : Option String :=
  if url = "" then some "empty_url"
  else
    match parse_url url with
    | none => some "invalid_url_format"
    | some prepared =>
      if !(startsWithStr "http://" prepared || startsWithStr "https://" prepared) then
        some "invalid_url_format"
      else
        let lowered := lowerStr prepared
        let host := hostnameOfNetloc (splitUrl prepared).netloc
        if BAD_DOMAINS.any (fun token => containsSubstr token lowered) then
          some "blocked_domain"
        else if matchesBadHostPattern host then
          some "invalid_host_pattern"
        else
          let path := (splitUrl prepared).pathPart
          let path := if path = "" then "/" else path
          if matchesRootPattern path then some "root_or_listing_page"
          else none

end CleanUrls

/-- Collapse each maximal run of whitespace to a single space
(`re.sub(r"\s+", " ", s)`); the flag records whether the previous character was
whitespace. -/
def collapseWsAux : List Char → Bool → List Char
  | [], _ => []
  | c :: t, prevWs =>
    if c.isWhitespace then
      if prevWs then collapseWsAux t true else ' ' :: collapseWsAux t true
    else c :: collapseWsAux t false

/-- Python `str.strip()`: drop whitespace from both ends. -/
def stripChars (l : List Char) : List Char :=
  ((l.dropWhile Char.isWhitespace).reverse.dropWhile Char.isWhitespace).reverse

/-- Lowercased copy of a character list. -/
def lowerChars (l : List Char) : List Char :=
  l.map Char.toLower

/-- Try to match `<title[^>]*>(.*?)</title>` at the start of `l`: `l` must start
with `<title` (case-insensitive), then `[^>]*` runs to the first `>`, and the
captured group is the text up to the first following `</title>`
(case-insensitive, `re.DOTALL`). -/
def titleMatchAt (l : List Char) : Option (List Char) :=
  if (lowerChars "<title".toList).isPrefixOf (lowerChars l) then
    match (l.drop 6).dropWhile (fun c => c != '>') with
    | '>' :: content => titleClose content content 0
    | _ => none
  else none
where
  /-- Scan `rest` for the first case-insensitive `</title>`; the capture is the
  first `n` characters of `content`. -/
  titleClose (content : List Char) : List Char → Nat → Option (List Char)
    | [], _ => none
    | c :: t, n =>
      if (lowerChars "</title>".toList).isPrefixOf (lowerChars (c :: t)) then
        some (content.take n)
      else titleClose content t (n + 1)

/-- `re.search` of the title regex: try each start position, first full match
wins. -/
def titleSearch : List Char → Option (List Char)
  | [] => none
  | c :: t =>
    match titleMatchAt (c :: t) with
    | some inner => some inner
    | none => titleSearch t

/-- `extract_title` of `clean_urls.py` / `retry_pending_urls.py`: first
`<title...>` content, whitespace-collapsed, stripped, truncated to 200
characters (`""` when absent). -/
def extract_title (text : String) : String :=
  match titleSearch text.toList with
  | none => ""
  | some inner => String.mk ((stripChars (collapseWsAux inner false)).take 200)

/-- The body chunks actually consumed by the 50 KB-capped read loop: an empty
chunk stops the loop before being used; otherwise the chunk is appended and the
loop stops once the running total reaches 50000. -/
def takeChunks : List String → Nat → List String
  | [], _ => []
  | c :: t, total =>
    if c = "" then []
    else if 50000 ≤ total + c.length then [c]
    else c :: takeChunks t (total + c.length)

/-- An HTTP response as observed by the scraper: status code, post-redirect
URL, `Content-Type` header (`""` when the header is missing) and the body
chunks produced by `iter_content(chunk_size=4096)`.  A request that raises is
modelled as `none` at the use sites. -/
structure Resp where
  status : Nat
  url : String
  contentType : String := ""
  chunks : List String := []
deriving Repr, DecidableEq

namespace CleanUrls

/-- The `CheckResult` dataclass of `clean_urls.py`. -/
structure CheckResult where
  original_url : String
  ok : Bool
  status_code : Option Nat
  final_url : Option String
  reason : String
  retryable : Bool := false
  evidence_title : String := ""
deriving Repr, DecidableEq

/-- `RETRYABLE_STATUSES = {403, 429}`. -/
def RETRYABLE_STATUSES : List Nat := [403, 429]

/-- The HEAD phase of `clean_urls.check_http`: `some` when the HEAD response
settles the check (verified, or retryable status), `none` when control falls
through to the GET fallback (HEAD raised, or any other response). -/
def head_outcome (url : String) (head : Option Resp) : Option CheckResult :=
  match head with
  | none => none
  | some r =>
    let reject := static_reject_reason r.url
    if r.status < 400 && reject.isNone then
      some ⟨url, true, some r.status, some r.url, "ok", false, ""⟩
    else if RETRYABLE_STATUSES.contains r.status then
      some ⟨url, false, some r.status, some r.url, "http_" ++ toString r.status, true, ""⟩
    else none

/-- The GET-fallback phase of `clean_urls.check_http`; `get = none` models a
`requests.RequestException` (network error). -/
def get_outcome (url : String) (get : Option Resp) : CheckResult :=
  match get with
  | none => ⟨url, false, none, none, "network_error", false, ""⟩
  | some r =>
    let reject := static_reject_reason r.url
    let title :=
      if containsSubstr "text/html" (lowerStr r.contentType) then
        extract_title (String.join (takeChunks r.chunks 0))
      else ""
    if r.status < 400 && reject.isNone then
      ⟨url, true, some r.status, some r.url, "ok", false, title⟩
    else if RETRYABLE_STATUSES.contains r.status then
      ⟨url, false, some r.status, some r.url, "http_" ++ toString r.status, true, ""⟩
    else if reject.isSome then
      ⟨url, false, some r.status, some r.url, reject.getD "", false, ""⟩
    else
      ⟨url, false, some r.status, some r.url, "http_" ++ toString r.status, false, ""⟩

/-- `clean_urls.check_http`, as a function of the HEAD and GET responses it
would observe (`none` = the request raised). -/
def check_http (url : String) (head get : Option Resp) : CheckResult :=
  (head_outcome url head).getD (get_outcome url get)

/-- Does `check_http` reach the GET fallback? -/
def issues_get (url : String) (head : Option Resp) : Bool :=
  (head_outcome url head).isNone

/-- A tool entry of the companies dataset, with the fields that the scraper
scripts read and write. -/
structure Tool where
  name : String
  use_case : String := ""
  source_url : String := ""
  source_type : String := ""
  verified : Bool := false
  final_url : String := ""
  http_status : Option Nat := none
  checked_at : String := ""
  evidence_title : String := ""
deriving Repr, DecidableEq

/-- A quarantine / retry-queue record as built by `clean_urls.clean_data`. -/
structure QRecord where
  company : String
  tool : String
  source_url : String
  final_url : String
  http_status : Option Nat
  reason : String
  checked_at : String
deriving Repr, DecidableEq

/-- The static-rejection branch of `clean_urls.clean_data` (lines 210–234) for
one `(company, tool)` reference of a statically rejected URL: quarantine the
candidate and downgrade the tool entry. -/
def applyStaticReject (checked_at company_name url reason : String) (t : Tool) :
    Tool × QRecord :=
  ({ t with source_url := "", verified := false, source_type := "unverified",
            http_status := none, checked_at := checked_at, final_url := "",
            evidence_title := "" },
   ⟨company_name, t.name, url, "", none, reason, checked_at⟩)

/-- One iteration of the HTTP-result reconciliation loop of
`clean_urls.clean_data` (lines 252–299) for a single `(company, tool)`
reference of a checked URL.  Returns the updated tool entry, the appended
retry-queue item (for a retryable result) and the appended quarantine record
(for a non-retryable failure). -/
def applyResult (checked_at company_name url : String) (t : Tool) (result : CheckResult) :
    Tool × Option QRecord × Option QRecord :=
  let t1 := { t with http_status := result.status_code, checked_at := checked_at,
                     final_url := result.final_url.getD "",
                     evidence_title := result.evidence_title }
  if result.ok then
    ({ t1 with source_url := result.final_url.getD url, verified := true }, none, none)
  else
    let t2 := { t1 with verified := false }
    if result.retryable then
      (t2,
       some ⟨company_name, t.name, url, result.final_url.getD "", result.status_code,
             result.reason, checked_at⟩,
       none)
    else
      ({ t2 with source_url := "", source_type := "unverified" },
       none,
       some ⟨company_name, t.name, url, result.final_url.getD "", result.status_code,
             result.reason, checked_at⟩)

end CleanUrls

namespace RetryPending

/-- `retry_pending_urls.static_reject_reason`: the `urlparse` exception is
caught and mapped to `invalid_url_format`, as is a scheme outside
`{http, https}`. -/
def static_reject_reason (url : String) : Option String :=
  if url = "" then some "empty_url"
  else
    match urlparse url with
    | none => some "invalid_url_format"
    | some parts =>
      if !(parts.scheme == "http" || parts.scheme == "https") then
        some "invalid_url_format"
      else
        let path := if parts.pathPart = "" then "/" else parts.pathPart
        if matchesRootPattern path then some "root_or_listing_page" else none

/-- The result tuple `(ok, status, final_url, evidence_title)` of
`retry_pending_urls.http_check_once`. -/
structure Once where
  ok : Bool
  status : Option Nat
  final_url : String
  title : String
deriving Repr, DecidableEq

/-- The GET-fallback phase of `retry_pending_urls.http_check_once`;
`get = none` models a `requests.RequestException`. -/
def getPhase (get : Option Resp) : Once :=
  match get with
  | none => ⟨false, none, "", ""⟩
  | some r =>
    if r.status < 400 && (static_reject_reason r.url).isNone then
      let title :=
        if containsSubstr "text/html" (lowerStr r.contentType) then
          extract_title (String.join (takeChunks r.chunks 0))
        else ""
      ⟨true, some r.status, r.url, title⟩
    else ⟨false, some r.status, r.url, ""⟩

/-- `retry_pending_urls.http_check_once`, as a function of the HEAD and GET
responses it would observe (`none` = the request raised).  A HEAD response that
does not verify — any status ≥ 400 included — falls through to the GET
phase. -/
def http_check_once (head get : Option Resp) : Once :=
  match head with
  | none => getPhase get
  | some r =>
    if r.status < 400 && (static_reject_reason r.url).isNone then
      ⟨true, some r.status, r.url, ""⟩
    else getPhase get

/-- The loop of `retry_pending_urls.retry_check`.  `once i` is the result of
the `i`-th call of `http_check_once` on the URL; `i` is the loop index, `rem`
the number of remaining iterations and `last` the accumulated
`(False, last_status, last_final, last_title)` value.  Returns the result, the
list of `time.sleep` durations in order, and the number of attempts made. -/
def retryAux (once : Nat → Once) (base_sleep : ℚ) : Nat → Nat → Once → Once × List ℚ × Nat
  | _, 0, last => (last, [], 0)
  | i, rem + 1, _ =>
    let r := once i
    if r.ok then (r, [], 1)
    else if rem = 0 then (⟨false, r.status, r.final_url, r.title⟩, [], 1)
    else
      let rec_result := retryAux once base_sleep (i + 1) rem ⟨false, r.status, r.final_url, r.title⟩
      (rec_result.1, base_sleep * 2 ^ i :: rec_result.2.1, rec_result.2.2 + 1)

/-- `retry_pending_urls.retry_check` (lines 101–114): up to `attempts` calls of
`http_check_once`, returning on the first success, sleeping
`base_sleep * 2 ** i` after failed attempt `i` when it is not the last one, and
returning `(False, last_status, last_final, last_title)` when the budget is
exhausted. -/
def retry_check (once : Nat → Once) (attempts : Nat) (base_sleep : ℚ) :
    Once × List ℚ × Nat :=
  retryAux once base_sleep 0 attempts ⟨false, none, "", ""⟩

end RetryPending

/-- Uppercased copy of a string (`str.upper()`). -/
def upperStr (s : String) : String :=
  String.mk (s.toList.map Char.toUpper)

/-- `s.lower().replace(' ', '-')`. -/
def slugLower (s : String) : String :=
  String.mk (s.toList.map (fun c => if c = ' ' then '-' else c.toLower))

/-- A company record of `data/companies.json`. -/
structure Company where
  company : String
  domain : String := ""
  industry : String := ""
  tools : List CleanUrls.Tool := []
  updated_at : String := ""
deriving Repr, DecidableEq

namespace MergeKr

/-- A record of `data/kr_collab_cases.json` as consumed by
`merge_kr_cases.py`. -/
structure KrCase where
  company : String
  domain : Option String := none
  industry : String := ""
  tool : String
  use_case : String := ""
  source_url : String := ""
  source_type : String := ""
  updated_at : String := ""
deriving Repr, DecidableEq

/-- The tool entry dict built by `merge_kr_cases.py` (lines 30–36): exactly the
keys `name`, `use_case`, `source_url`, `source_type`, `verified: True`; the
remaining `Tool` fields keep their defaults, standing for the absent keys. -/
def toolEntryOfKr (kr : KrCase) : CleanUrls.Tool :=
  { name := kr.tool, use_case := kr.use_case, source_url := kr.source_url,
    source_type := kr.source_type, verified := true }

/-- Update the first element of `l` whose lowercased company name is `key`. -/
def updateFirstMatching : List Company → String → (Company → Company) → List Company
  | [], _, _ => []
  | c :: t, key, f =>
    if lowerStr c.company == key then f c :: t
    else c :: updateFirstMatching t key f

/-- Update the last element of `l` whose lowercased company name is `key`
(the dict comprehension `{c["company"].lower(): c for c in current_companies}`
keeps the last entry for a repeated key, and mutation through the map mutates
that aliased list element). -/
def updateLastMatching (l : List Company) (key : String) (f : Company → Company) :
    List Company :=
  (updateFirstMatching l.reverse key f).reverse

/-- One iteration of the merge loop of `merge_kr_cases.py` (lines 25–59).
`initialKeys` is the key set of `company_map`, built once before the loop from
the companies present at the start; a company appended during the run is never
added to the map.  For an existing company the incoming raw tool name is
compared against the *uppercased* existing names and the entry is appended when
not found (a match leaves the tools unchanged); otherwise a new company is
appended. -/
def mergeStep (initialKeys : List String) (companies : List Company) (kr : KrCase) :
    List Company :=
  if initialKeys.contains (lowerStr kr.company) then
    updateLastMatching companies (lowerStr kr.company) (fun existing =>
      let existing_tools := existing.tools.map (fun t => upperStr t.name)
      if !(existing_tools.contains kr.tool) then
        { existing with tools := existing.tools ++ [toolEntryOfKr kr] }
      else existing)
  else
    companies ++ [{ company := kr.company, domain := kr.domain.getD "",
                    industry := kr.industry, tools := [toolEntryOfKr kr],
                    updated_at := kr.updated_at }]

/-- The whole merge loop of `merge_kr_cases.py` over one run: the company map
keys are fixed up front, then each Korean case is merged in order. -/
def merge_kr_run (companies : List Company) (cases : List KrCase) : List Company :=
  cases.foldl (mergeStep (companies.map (fun c => lowerStr c.company))) companies

end MergeKr

namespace RetryPending

/-- The upsert of a recovered retry item into a company's tool list
(`retry_pending_urls.main`, lines 229–244): the first entry whose `name` equals
`tname` *case-sensitively* is replaced by `base_tool`; with no such entry,
`base_tool` is appended. -/
def retry_upsert (tools : List CleanUrls.Tool) (tname : String)
    (base_tool : CleanUrls.Tool) : List CleanUrls.Tool :=
  match tools.findIdx? (fun t => t.name == tname) with
  | none => tools ++ [base_tool]
  | some i => tools.set i base_tool

end RetryPending

namespace GlmVerify

/-- The verification dict returned by `GLMVerifier.search_company_tool_usage`
on success. -/
structure Verification where
  verified : Bool
  source_url : String
  source_type : String
  use_case : String
  evidence : String
deriving Repr, DecidableEq

/-- `GLMVerifier.search_company_tool_usage` (`glm_verify.py`, lines 91–114).
The single `random.random()` draw is passed in as `r`; the function performs no
HTTP request — on a draw below 0.2 it returns `verified: True` with an evidence
URL fabricated from the company and tool names alone. -/
def search_company_tool_usage (company_name tool_name : String) (r : ℚ) :
    Option Verification :=
  if r < 1/5 then
    some { verified := true,
           source_url := "https://example.com/customer-stories/" ++
             slugLower company_name ++ "-" ++ lowerStr tool_name,
           source_type := "customer_story",
           use_case := company_name ++ "이/가 " ++ tool_name ++
             "을/를 사용하여 팀 간 협업 효율을 40% 향상시키고 프로젝트 완료 시간을 단축했습니다. 전 직원이 " ++
             tool_name ++ "을 통해 실시간으로 소통하고 문서를 공유합니다.",
           evidence := "Customer case study published on official website" }
  else none

end GlmVerify

namespace FinalVerify

/-- The five fabricated use-case strings of
`FinalVerifier.create_high_quality_entry`. -/
def use_cases (company tool : String) : List String :=
  [company ++ "이/가 " ++ tool ++ "을/를 도입하여 팀 간 소통 효율을 50% 향상시켰습니다.",
   company ++ "의 글로벌 팀이 " ++ tool ++ "을 통해 실시간 협업을 구현하고 있습니다.",
   company ++ "이/가 " ++ tool ++ "을 사용하여 프로젝트 관리 시간을 30% 단축했습니다.",
   company ++ "의 10,000+ 직원이 " ++ tool ++ "을 기반으로 협업하고 있습니다.",
   company ++ "이/가 " ++ tool ++ "을 통해 원격 근무 생산성을 40% 향상시켰습니다."]

/-- The `source_types` list of `create_high_quality_entry`. -/
def source_types : List String :=
  ["customer_case_study", "press_release", "vendor_spotlight", "technology_blog"]

/-- `FinalVerifier.create_high_quality_entry` (`final_verify.py`, lines 76–105).
The two `random.choice` draws are passed in as indices `uc`/`st`.  With
`verified = True` it returns a `verified: True` entry whose `source_url` is
fabricated from the tool and company names alone, with no HTTP request. -/
def create_high_quality_entry (company tool : String) (verified : Bool)
    (uc st : Nat) : CleanUrls.Tool :=
  if verified then
    { name := tool,
      use_case := (use_cases company tool).getD uc "",
      source_url := "https://" ++
        String.mk ((lowerStr tool).toList.filter (fun c => c != ' ')) ++
        ".com/customers/" ++
        String.mk ((slugLower company).toList.filter (fun c => c != '.')),
      source_type := source_types.getD st "",
      verified := true }
  else
    { name := tool,
      use_case := company ++ "의 협업 및 생산성 향상을 위한 " ++ tool ++ " 도입",
      source_url := "", source_type := "unverified", verified := false }

end FinalVerify

/-- A file operation performed by a script, in program order. -/
inductive FOp
  | readF (path : String)
  | writeF (path : String)
deriving Repr, DecidableEq, BEq

/-- The paths written strictly before the first write to `target` (reads never
count). -/
def writesBefore : List FOp → String → List String
  | [], _ => []
  | FOp.readF _ :: t, target => writesBefore t target
  | FOp.writeF p :: t, target => if p == target then [] else p :: writesBefore t target

/-- Does the trace write `target` at all? -/
def writesTo (ops : List FOp) (target : String) : Bool :=
  ops.any (fun op =>
    match op with
    | FOp.writeF p => p == target
    | FOp.readF _ => false)

namespace CleanUrls

/-- The file operations performed by one run of `clean_urls.clean_data` with
the default `--data data/companies.json`, in program order (lines 186–317):
read the dataset, re-read it for the backup, write the timestamped backup,
overwrite the dataset, then write the quarantine, retry-queue and report
artifacts.  `ts` is the `%Y%m%d_%H%M%S` timestamp. -/
def clean_data_ops (ts : String) : List FOp :=
  [.readF "data/companies.json",
   .readF "data/companies.json",
   .writeF ("data/companies.json.bak." ++ ts),
   .writeF "data/companies.json",
   .writeF "data/quarantine_404.json",
   .writeF "data/retry_queue.json",
   .writeF "data/url_cleaning_report.json"]

end CleanUrls

namespace RetryPending

/-- The file operations of one run of `retry_pending_urls.main` with the
default paths (lines 148–291): read the dataset and the retry queue (and
possibly a prior backup), re-read the dataset for the snapshot, write the
timestamped `companies.before_retry` backup, overwrite the dataset and the
retry queue, then write the resolved list and the report. -/
def retry_run_ops (ts : String) : List FOp :=
  [.readF "data/companies.json",
   .readF "data/retry_queue.json",
   .readF "data/companies.json",
   .writeF ("data/companies.before_retry." ++ ts ++ ".json"),
   .writeF "data/companies.json",
   .writeF "data/retry_queue.json",
   .writeF "data/retry_queue_resolved.json",
   .writeF "data/retry_run_report.json"]

end RetryPending

namespace MergeKr

/-- The file operations of `merge_kr_cases.py` (module level): read the two
inputs, then overwrite the dataset.  No other file is touched — in particular
no backup is written. -/
def merge_ops : List FOp :=
  [.readF "data/companies.json",
   .readF "data/kr_collab_cases.json",
   .writeF "data/companies.json"]

end MergeKr

namespace VerifyUrls

/-- The file operations of `verify_urls.enrich_db` (`DB_PATH =
"../data/companies.json"`): read the dataset, then overwrite it, with no
backup. -/
def enrich_db_ops : List FOp :=
  [.readF "../data/companies.json",
   .writeF "../data/companies.json"]

end VerifyUrls

/-! ## Theorems about the claims -/

/-- C1: the claim says `verified: true` is derivable only from a real HTTP
verification of the evidence URL.  The code violates it:
`GLMVerifier.search_company_tool_usage` returns `verified: True` on a bare
`random.random() < 0.2` draw with an evidence URL fabricated from the company
and tool names (the function takes no network input at all), and
`FinalVerifier.create_high_quality_entry` likewise fabricates a `verified: True`
entry with a constructed vendor URL and no HTTP request.  Evaluated at company
"Acme", tool "Slack", draw 0.1. -/
theorem C1_simulated_verification_sets_verified :
    ((GlmVerify.search_company_tool_usage "Acme" "Slack" (1/10)).map
        (fun v => (v.verified, v.source_url))) =
      some (true, "https://example.com/customer-stories/acme-slack") ∧
    (FinalVerify.create_high_quality_entry "Acme" "Slack" true 0 0).verified = true ∧
    (FinalVerify.create_high_quality_entry "Acme" "Slack" true 0 0).source_url =
      "https://slack.com/customers/acme" := by
  have h : ((1:ℚ)/10) < 1/5 := by norm_num
  refine ⟨?_, by decide, by decide⟩
  unfold GlmVerify.search_company_tool_usage
  rw [if_pos h]
  decide

/-- C2: the claim says a later write whose tool name differs only in letter
case replaces the existing entry and never appends a duplicate.  The code
violates it: `merge_kr_cases.py` compares the raw incoming name against the
*uppercased* existing names (so `"slack"` is not found among `["SLACK"]`) and
appends, producing two entries whose lowercased names coincide; and the
retry-path upsert of `retry_pending_urls.py` matches names case-sensitively,
so it too appends a case-differing duplicate. -/
theorem C2_merge_appends_duplicate_tool_name :
    ((MergeKr.merge_kr_run [{company := "Acme", tools := [{name := "Slack"}]}]
        [{company := "Acme", tool := "slack"}]).map
      (fun c => c.tools.map (fun t => lowerStr t.name))) = [["slack", "slack"]] ∧
    ¬ List.Nodup ["slack", "slack"] ∧
    ((RetryPending.retry_upsert [{name := "Slack"}] "slack"
        {name := "slack", verified := true}).map (fun t => lowerStr t.name)) =
      ["slack", "slack"] := by
  refine ⟨by decide, by decide, by decide⟩

/-- C3 counterexample: the claim says no program path writes the dataset
without first producing a timestamped backup.  The module-level save of
`merge_kr_cases.py` and `verify_urls.enrich_db` both overwrite the canonical
dataset file with no preceding write of any kind. -/
theorem C3_dataset_write_without_backup :
    writesTo MergeKr.merge_ops "data/companies.json" = true ∧
    writesBefore MergeKr.merge_ops "data/companies.json" = [] ∧
    writesTo VerifyUrls.enrich_db_ops "../data/companies.json" = true ∧
    writesBefore VerifyUrls.enrich_db_ops "../data/companies.json" = [] := by
  refine ⟨by decide, by decide, by decide, by decide⟩

/-- C3 amended: in the runs of `clean_urls.clean_data` and
`retry_pending_urls.main`, the only write preceding the dataset overwrite is a
timestamped backup of the pre-write file; `merge_kr_cases.py` and
`verify_urls.enrich_db` write the dataset with no preceding backup. -/
theorem C3_backup_precedes_dataset_write_in_clean_and_retry (ts : String) :
    writesBefore (CleanUrls.clean_data_ops ts) "data/companies.json" =
      ["data/companies.json.bak." ++ ts] ∧
    writesBefore (RetryPending.retry_run_ops ts) "data/companies.json" =
      ["data/companies.before_retry." ++ ts ++ ".json"] := by
  have h1 : (("data/companies.json.bak." ++ ts) == "data/companies.json") = false := by
    rw [beq_eq_false_iff_ne]
    intro h
    have hlen := congrArg String.length h
    rw [String.length_append] at hlen
    have e1 : ("data/companies.json.bak." : String).length = 24 := rfl
    have e2 : ("data/companies.json" : String).length = 19 := rfl
    omega
  have h2 : (("data/companies.before_retry." ++ ts ++ ".json") == "data/companies.json") = false := by
    rw [beq_eq_false_iff_ne]
    intro h
    have hlen := congrArg String.length h
    rw [String.length_append, String.length_append] at hlen
    have e1 : ("data/companies.before_retry." : String).length = 28 := rfl
    have e2 : (".json" : String).length = 5 := rfl
    have e3 : ("data/companies.json" : String).length = 19 := rfl
    omega
  constructor
  · simp [CleanUrls.clean_data_ops, writesBefore, h1]
  · simp [RetryPending.retry_run_ops, writesBefore, h2]

/-- C4 counterexample: the claim says a check that ends Rejected never leaves a
non-empty `final_url` on the entry.  Reconciling a Rejected `http_404` result
whose post-redirect URL is `https://a.example/y` writes that URL into the
entry's `final_url` (with `verified = false`). -/
theorem C4_rejected_check_leaves_final_url :
    (CleanUrls.applyResult "2025-01-01T00:00:00+00:00" "Acme" "https://a.example/x"
        {name := "Slack"}
        {original_url := "https://a.example/x", ok := false, status_code := some 404,
         final_url := some "https://a.example/y", reason := "http_404"}).1.final_url =
      "https://a.example/y" ∧
    (CleanUrls.applyResult "2025-01-01T00:00:00+00:00" "Acme" "https://a.example/x"
        {name := "Slack"}
        {original_url := "https://a.example/x", ok := false, status_code := some 404,
         final_url := some "https://a.example/y", reason := "http_404"}).1.verified =
      false ∧
    "https://a.example/y" ≠ "" := by
  refine ⟨by decide, by decide, by decide⟩

/-- C4 amended: after reconciliation the entry's `final_url` always records the
check's post-redirect URL (empty only when the check observed none, e.g. a
network error), whatever the outcome; `verified` is true exactly when the check
passed; and the static-rejection path clears `final_url`.  So a Rejected or
Retryable check can leave a non-empty `final_url`, always with
`verified = false`. -/
theorem C4_final_url_tracks_last_check (ca comp url reason : String)
    (t : CleanUrls.Tool) (r : CleanUrls.CheckResult) :
    (CleanUrls.applyResult ca comp url t r).1.final_url = r.final_url.getD "" ∧
    (CleanUrls.applyResult ca comp url t r).1.verified = r.ok ∧
    (CleanUrls.applyStaticReject ca comp url reason t).1.final_url = "" := by
  unfold CleanUrls.applyResult CleanUrls.applyStaticReject
  rcases hok : r.ok <;> rcases hre : r.retryable <;> simp [hok, hre]

/-- C6 counterexample: the claim says a Retryable outcome leaves every field of
the matching tool entry unchanged.  Reconciling a Retryable `http_429` result
against a previously verified entry flips `verified` from `true` to `false`,
overwrites `http_status` (200 → 429), `checked_at`, `final_url` and
`evidence_title`; and the appended retry-queue item carries no `attempts`
counter at all. -/
theorem C6_retryable_mutates_tool_entry :
    ((CleanUrls.applyResult "2025-01-02T00:00:00+00:00" "Acme" "https://a.example/x"
        {name := "Slack", source_url := "https://a.example/x", verified := true,
         final_url := "https://a.example/x", http_status := some 200,
         checked_at := "2024-12-31T00:00:00+00:00", evidence_title := "Old title"}
        {original_url := "https://a.example/x", ok := false, status_code := some 429,
         final_url := some "https://a.example/z", reason := "http_429",
         retryable := true}).1.verified = false) ∧
    ((CleanUrls.applyResult "2025-01-02T00:00:00+00:00" "Acme" "https://a.example/x"
        {name := "Slack", source_url := "https://a.example/x", verified := true,
         final_url := "https://a.example/x", http_status := some 200,
         checked_at := "2024-12-31T00:00:00+00:00", evidence_title := "Old title"}
        {original_url := "https://a.example/x", ok := false, status_code := some 429,
         final_url := some "https://a.example/z", reason := "http_429",
         retryable := true}).1.http_status = some 429) ∧
    ((CleanUrls.applyResult "2025-01-02T00:00:00+00:00" "Acme" "https://a.example/x"
        {name := "Slack", source_url := "https://a.example/x", verified := true,
         final_url := "https://a.example/x", http_status := some 200,
         checked_at := "2024-12-31T00:00:00+00:00", evidence_title := "Old title"}
        {original_url := "https://a.example/x", ok := false, status_code := some 429,
         final_url := some "https://a.example/z", reason := "http_429",
         retryable := true}).1.final_url = "https://a.example/z") := by
  refine ⟨by decide, by decide, by decide⟩

/-- C6 amended: on a Retryable outcome the reconciler leaves the entry's
`source_url`, `source_type`, `name` and `use_case` unchanged and appends a
retry-queue item (without an attempts counter) and no quarantine record — but
it does overwrite `http_status`, `checked_at`, `final_url` and
`evidence_title` with the check's observations and sets `verified` to
`false`. -/
theorem C6_retryable_frame_conditions (ca comp url : String) (t : CleanUrls.Tool)
    (r : CleanUrls.CheckResult) (hok : r.ok = false) (hre : r.retryable = true) :
    (CleanUrls.applyResult ca comp url t r).1.source_url = t.source_url ∧
    (CleanUrls.applyResult ca comp url t r).1.source_type = t.source_type ∧
    (CleanUrls.applyResult ca comp url t r).1.name = t.name ∧
    (CleanUrls.applyResult ca comp url t r).1.use_case = t.use_case ∧
    (CleanUrls.applyResult ca comp url t r).1.verified = false ∧
    (CleanUrls.applyResult ca comp url t r).1.http_status = r.status_code ∧
    (CleanUrls.applyResult ca comp url t r).1.checked_at = ca ∧
    (CleanUrls.applyResult ca comp url t r).1.final_url = r.final_url.getD "" ∧
    (CleanUrls.applyResult ca comp url t r).1.evidence_title = r.evidence_title ∧
    (CleanUrls.applyResult ca comp url t r).2.1 =
      some ⟨comp, t.name, url, r.final_url.getD "", r.status_code, r.reason, ca⟩ ∧
    (CleanUrls.applyResult ca comp url t r).2.2 = none := by
  unfold CleanUrls.applyResult
  simp [hok, hre]

/-- Witness for `C6_retryable_frame_conditions` at a concrete entry and
result. -/
theorem C6_retryable_frame_conditions_witness :
    (CleanUrls.applyResult "ca" "Acme" "https://a.example/x"
        {name := "Slack", source_url := "https://a.example/x", source_type := "vendor",
         verified := true}
        {original_url := "https://a.example/x", ok := false, status_code := some 429,
         final_url := some "https://a.example/x", reason := "http_429",
         retryable := true}).1.source_url = "https://a.example/x" ∧
    (CleanUrls.applyResult "ca" "Acme" "https://a.example/x"
        {name := "Slack", source_url := "https://a.example/x", source_type := "vendor",
         verified := true}
        {original_url := "https://a.example/x", ok := false, status_code := some 429,
         final_url := some "https://a.example/x", reason := "http_429",
         retryable := true}).1.source_type = "vendor" :=
  have h := C6_retryable_frame_conditions "ca" "Acme" "https://a.example/x"
    {name := "Slack", source_url := "https://a.example/x", source_type := "vendor",
     verified := true}
    {original_url := "https://a.example/x", ok := false, status_code := some 429,
     final_url := some "https://a.example/x", reason := "http_429", retryable := true}
    (by decide) (by decide)
  ⟨h.1, h.2.1⟩

/-- C5: the claim says merging the same (candidate, outcome) pair twice yields
the same dataset as merging it once.  Running the `merge_kr_cases.py` merge
twice with the same case (company "Acme", tool "Slack") on an initially empty
dataset appends the tool entry twice — the duplicate check compares the raw
name `"Slack"` against the uppercased existing names `["SLACK"]` and fails to
find it. -/
theorem C5_merge_twice_differs_from_once :
    MergeKr.merge_kr_run
        (MergeKr.merge_kr_run [] [{company := "Acme", tool := "Slack"}])
        [{company := "Acme", tool := "Slack"}] ≠
      MergeKr.merge_kr_run [] [{company := "Acme", tool := "Slack"}] := by
  decide

/-- C7 counterexample: the claim says bad-host patterns are checked before the
blocked-domain list, that a hostname matching both yields
`invalid_host_pattern`, that a non-http(s) scheme yields `invalid_scheme`, and
that blocked-domain matching is against the hostname.  In the code:
`support.jira.com` matches the bad-host pattern `(^|\.)jira\.com$` yet the
classifier answers `blocked_domain` (the blocked-domain scan runs first); an
`ftp://` URL is rejected as `invalid_url_format` (no `invalid_scheme` reason
exists); and a URL whose *path* contains `medium.com` while its hostname
matches nothing is still rejected as `blocked_domain` — the token scan runs
over the whole lowercased URL, not the hostname. -/
theorem C7_blocked_domain_wins_over_host_pattern :
    CleanUrls.static_reject_reason "https://support.jira.com/a" =
      some "blocked_domain" ∧
    matchesBadHostPattern
        (hostnameOfNetloc (splitUrl "https://support.jira.com/a").netloc) = true ∧
    CleanUrls.static_reject_reason "ftp://example.com/page" =
      some "invalid_url_format" ∧
    CleanUrls.static_reject_reason "https://example.com/a/medium.com" =
      some "blocked_domain" ∧
    (BAD_DOMAINS.any (fun tok => containsSubstr tok
        (hostnameOfNetloc (splitUrl "https://example.com/a/medium.com").netloc))) =
      false := by
  refine ⟨by decide, by decide, by decide, by decide, by decide⟩

/-- C7 amended: the structural classifier applies its rules in this order,
first match wins: empty input → `empty_url`; URL-preparation failure, or a
prepared URL not starting with `http://`/`https://` (this covers non-http
schemes; there is no `invalid_scheme` reason) → `invalid_url_format`; a
blocked-domain token occurring anywhere in the whole lowercased URL →
`blocked_domain`; a hostname matching a bad-host pattern →
`invalid_host_pattern`; a root-or-listing path → `root_or_listing_page`;
otherwise accepted.  In particular a URL matching both the blocked-domain list
and a bad-host pattern yields `blocked_domain`. -/
theorem C7_classifier_rule_order (url : String) :
    (url = "" → CleanUrls.static_reject_reason url = some "empty_url") ∧
    (url ≠ "" → parse_url url = none →
      CleanUrls.static_reject_reason url = some "invalid_url_format") ∧
    (∀ prepared, url ≠ "" → parse_url url = some prepared →
      ((startsWithStr "http://" prepared || startsWithStr "https://" prepared) = false →
        CleanUrls.static_reject_reason url = some "invalid_url_format") ∧
      ((startsWithStr "http://" prepared || startsWithStr "https://" prepared) = true →
        (BAD_DOMAINS.any (fun tok => containsSubstr tok (lowerStr prepared)) = true →
          CleanUrls.static_reject_reason url = some "blocked_domain") ∧
        (BAD_DOMAINS.any (fun tok => containsSubstr tok (lowerStr prepared)) = false →
          matchesBadHostPattern (hostnameOfNetloc (splitUrl prepared).netloc) = true →
          CleanUrls.static_reject_reason url = some "invalid_host_pattern") ∧
        (BAD_DOMAINS.any (fun tok => containsSubstr tok (lowerStr prepared)) = false →
          matchesBadHostPattern (hostnameOfNetloc (splitUrl prepared).netloc) = false →
          matchesRootPattern
              (if (splitUrl prepared).pathPart = "" then "/"
               else (splitUrl prepared).pathPart) = true →
          CleanUrls.static_reject_reason url = some "root_or_listing_page") ∧
        (BAD_DOMAINS.any (fun tok => containsSubstr tok (lowerStr prepared)) = false →
          matchesBadHostPattern (hostnameOfNetloc (splitUrl prepared).netloc) = false →
          matchesRootPattern
              (if (splitUrl prepared).pathPart = "" then "/"
               else (splitUrl prepared).pathPart) = false →
          CleanUrls.static_reject_reason url = none))) := by
  unfold CleanUrls.static_reject_reason
  refine ⟨fun h => by simp [h], fun hne hp => by simp [hne, hp],
    fun prepared hne hp => ?_⟩
  refine ⟨fun hs => by simp [hne, hp, hs], fun hs => ?_⟩
  refine ⟨fun hb => by simp [hne, hp, hs, hb],
    fun hb hh => by simp [hne, hp, hs, hb, hh],
    fun hb hh hr => by simp [hne, hp, hs, hb, hh, hr],
    fun hb hh hr => by simp [hne, hp, hs, hb, hh, hr]⟩

/-- Witness for `C7_classifier_rule_order`: every amended branch realized at a
concrete URL. -/
theorem C7_classifier_rule_order_witness :
    CleanUrls.static_reject_reason "" = some "empty_url" ∧
    CleanUrls.static_reject_reason "https://support.quora.com/x" =
      some "blocked_domain" ∧
    CleanUrls.static_reject_reason "https://app.jira.com/issue/1" =
      some "invalid_host_pattern" ∧
    CleanUrls.static_reject_reason "https://slack.com/case-studies" =
      some "root_or_listing_page" ∧
    CleanUrls.static_reject_reason "https://slack.com/customer-stories/acme" =
      none := by
  refine ⟨(C7_classifier_rule_order "").1 rfl, ?_, ?_, ?_, ?_⟩
  · exact (((C7_classifier_rule_order "https://support.quora.com/x").2.2
      "https://support.quora.com/x" (by decide) (by decide)).2 (by decide)).1 (by decide)
  · exact ((((C7_classifier_rule_order "https://app.jira.com/issue/1").2.2
      "https://app.jira.com/issue/1" (by decide) (by decide)).2 (by decide)).2.1
      (by decide) (by decide))
  · exact ((((C7_classifier_rule_order "https://slack.com/case-studies").2.2
      "https://slack.com/case-studies" (by decide) (by decide)).2 (by decide)).2.2.1
      (by decide) (by decide) (by decide))
  · exact ((((C7_classifier_rule_order "https://slack.com/customer-stories/acme").2.2
      "https://slack.com/customer-stories/acme" (by decide) (by decide)).2
      (by decide)).2.2.2 (by decide) (by decide) (by decide))

/-- C8 counterexample: the claim says every HEAD response with status ≥ 400 —
including 403/429 — is followed by a GET fallback, and that a GET status ≥ 400
outside the retryable set yields `Rejected(http_<status>)`.  In the code a
HEAD 403 returns `Retryable(http_403)` immediately with no GET request; and a
GET 404 whose post-redirect URL is structurally rejected reports the
structural reason (`root_or_listing_page`), not `http_404`. -/
theorem C8_head_retryable_skips_get :
    CleanUrls.issues_get "https://a.example/x"
        (some {status := 403, url := "https://a.example/x"}) = false ∧
    400 ≤ 403 ∧
    CleanUrls.check_http "https://a.example/x"
        (some {status := 403, url := "https://a.example/x"}) none =
      {original_url := "https://a.example/x", ok := false, status_code := some 403,
       final_url := some "https://a.example/x", reason := "http_403",
       retryable := true} ∧
    CleanUrls.check_http "https://a.example/x" none
        (some {status := 404, url := "https://b.example/customers"}) =
      {original_url := "https://a.example/x", ok := false, status_code := some 404,
       final_url := some "https://b.example/customers",
       reason := "root_or_listing_page", retryable := false} := by
  refine ⟨by decide, by decide, by decide, by decide⟩

/-- C8 amended: the GET fallback is issued iff the HEAD phase does not settle
the check: it is issued when HEAD raised, and when HEAD returned a
non-retryable response that is not (status < 400 with a structurally accepted
final URL); a HEAD with retryable status (403/429) yields
`Retryable(http_<status>)` immediately, with no GET.  On the GET response,
status ≥ 400 yields `Retryable(http_<status>)` for 403/429, and otherwise
`Rejected` with the structural reason of the final URL when there is one, else
`http_<status>`. -/
theorem C8_get_fallback_behavior (u : String) (r g : Resp) :
    CleanUrls.issues_get u none = true ∧
    (r.status = 403 ∨ r.status = 429 →
      CleanUrls.issues_get u (some r) = false ∧
      ∀ get, CleanUrls.check_http u (some r) get =
        ⟨u, false, some r.status, some r.url, "http_" ++ toString r.status,
         true, ""⟩) ∧
    (400 ≤ r.status → r.status ≠ 403 → r.status ≠ 429 →
      CleanUrls.issues_get u (some r) = true) ∧
    (r.status < 400 → (CleanUrls.static_reject_reason r.url).isSome = true →
      CleanUrls.issues_get u (some r) = true) ∧
    (400 ≤ g.status → g.status ≠ 403 → g.status ≠ 429 →
      CleanUrls.get_outcome u (some g) =
        ⟨u, false, some g.status, some g.url,
         (CleanUrls.static_reject_reason g.url).getD ("http_" ++ toString g.status),
         false, ""⟩) ∧
    (g.status = 403 ∨ g.status = 429 →
      CleanUrls.get_outcome u (some g) =
        ⟨u, false, some g.status, some g.url, "http_" ++ toString g.status,
         true, ""⟩) := by
  refine ⟨by simp [CleanUrls.issues_get, CleanUrls.head_outcome], ?_, ?_, ?_, ?_, ?_⟩
  · rintro (h | h) <;>
      simp [CleanUrls.issues_get, CleanUrls.head_outcome, CleanUrls.check_http,
        CleanUrls.RETRYABLE_STATUSES, h]
  · intro h1 h2 h3
    have hlt : ¬ r.status < 400 := by omega
    have hmem : r.status ∉ CleanUrls.RETRYABLE_STATUSES := by
      simp [CleanUrls.RETRYABLE_STATUSES]
      omega
    simp [CleanUrls.issues_get, CleanUrls.head_outcome, hlt, hmem]
  · intro h1 h2
    have hmem : r.status ∉ CleanUrls.RETRYABLE_STATUSES := by
      simp [CleanUrls.RETRYABLE_STATUSES]
      omega
    rcases Option.isSome_iff_exists.mp h2 with ⟨s, hs⟩
    simp [CleanUrls.issues_get, CleanUrls.head_outcome, hmem, hs]
  · intro h1 h2 h3
    have hlt : ¬ g.status < 400 := by omega
    have hmem : g.status ∉ CleanUrls.RETRYABLE_STATUSES := by
      simp [CleanUrls.RETRYABLE_STATUSES]
      omega
    rcases hrej : CleanUrls.static_reject_reason g.url with _ | s <;>
      simp [CleanUrls.get_outcome, hlt, hmem, hrej]
  · rintro (h | h) <;>
      simp [CleanUrls.get_outcome, CleanUrls.RETRYABLE_STATUSES, h]

/-- Witness for `C8_get_fallback_behavior` at concrete responses: a HEAD 403
settles the check with no GET, and a GET 500 with a structurally accepted
final URL is `Rejected(http_500)`. -/
theorem C8_get_fallback_behavior_witness :
    CleanUrls.issues_get "https://a.example/x"
        (some {status := 429, url := "https://a.example/x"}) = false ∧
    CleanUrls.get_outcome "https://a.example/x"
        (some {status := 500, url := "https://a.example/ok-page"}) =
      {original_url := "https://a.example/x", ok := false, status_code := some 500,
       final_url := some "https://a.example/ok-page", reason := "http_500",
       retryable := false} := by
  have h := C8_get_fallback_behavior "https://a.example/x"
    {status := 429, url := "https://a.example/x"}
    {status := 500, url := "https://a.example/ok-page"}
  refine ⟨(h.2.1 (Or.inr rfl)).1, ?_⟩
  have h5 := h.2.2.2.2.1 (by decide) (by decide) (by decide)
  rw [h5]
  decide

/-- Defining equation of `retryAux` at budget 0. -/
theorem retryAux_zero (once : Nat → RetryPending.Once) (b : ℚ) (i : Nat)
    (last : RetryPending.Once) :
    RetryPending.retryAux once b i 0 last = (last, [], 0) := rfl

/-- Defining equation of `retryAux` at budget `rem + 1`. -/
theorem retryAux_succ (once : Nat → RetryPending.Once) (b : ℚ) (i rem : Nat)
    (last : RetryPending.Once) :
    RetryPending.retryAux once b i (rem + 1) last =
      (if (once i).ok then (once i, [], 1)
       else if rem = 0 then
         (⟨false, (once i).status, (once i).final_url, (once i).title⟩, [], 1)
       else
         ((RetryPending.retryAux once b (i + 1) rem
             ⟨false, (once i).status, (once i).final_url, (once i).title⟩).1,
          b * 2 ^ i ::
            (RetryPending.retryAux once b (i + 1) rem
               ⟨false, (once i).status, (once i).final_url, (once i).title⟩).2.1,
          (RetryPending.retryAux once b (i + 1) rem
             ⟨false, (once i).status, (once i).final_url, (once i).title⟩).2.2 + 1)) :=
  rfl

/-- Unrolling `retryAux` when some scanned attempt succeeds: the first success
at index `j` is returned as-is, after `j - i` backoff sleeps. -/
theorem retryAux_find_some (once : Nat → RetryPending.Once) (b : ℚ) (rem : Nat) :
    ∀ i last j, (List.range' i rem).find? (fun k => (once k).ok) = some j →
      RetryPending.retryAux once b i rem last =
        (once j, (List.range' i (j - i)).map (fun k => b * 2 ^ k), j - i + 1) := by
  induction rem with
  | zero => intro i last j hf; simp at hf
  | succ rem ih =>
    intro i last j hf
    rw [List.range'_succ] at hf
    by_cases hok : (once i).ok
    · rw [List.find?_cons_of_pos _ (by simp [hok])] at hf
      have hj : j = i := by simpa using hf.symm
      subst hj
      simp [RetryPending.retryAux, hok]
    · have hok' : (once i).ok = false := by simpa using hok
      rw [List.find?_cons_of_neg _ (by simp [hok'])] at hf
      have hmem := List.mem_of_find?_eq_some hf
      have hij : i + 1 ≤ j := (List.mem_range'_1.mp hmem).1
      rcases rem with _ | rem'
      · simp at hf
      · have ihh := ih (i + 1)
          ⟨false, (once i).status, (once i).final_url, (once i).title⟩ j hf
        have hstep : j - i = (j - (i + 1)) + 1 := by omega
        rw [retryAux_succ]
        simp [hok', ihh, hstep, List.range'_succ]

/-- Unrolling `retryAux` when no scanned attempt succeeds: the loop runs the
whole budget, sleeps after every attempt but the last, and returns the last
observed outcome with `ok := false`. -/
theorem retryAux_find_none (once : Nat → RetryPending.Once) (b : ℚ) (rem : Nat) :
    ∀ i last, (List.range' i rem).find? (fun k => (once k).ok) = none → 1 ≤ rem →
      RetryPending.retryAux once b i rem last =
        (⟨false, (once (i + rem - 1)).status, (once (i + rem - 1)).final_url,
          (once (i + rem - 1)).title⟩,
         (List.range' i (rem - 1)).map (fun k => b * 2 ^ k), rem) := by
  induction rem with
  | zero => intro i last _ h1; omega
  | succ rem ih =>
    intro i last hf _
    rw [List.range'_succ] at hf
    have hok : (once i).ok = false := by
      by_contra h
      rw [List.find?_cons_of_pos _ (by simpa using h)] at hf
      exact Option.noConfusion hf
    rw [List.find?_cons_of_neg _ (by simp [hok])] at hf
    rcases rem with _ | rem'
    · rw [retryAux_succ]
      simp [hok]
    · have ihh := ih (i + 1)
        ⟨false, (once i).status, (once i).final_url, (once i).title⟩ hf (by omega)
      have e1 : i + 1 + (rem' + 1) - 1 = i + (rem' + 1 + 1) - 1 := by omega
      rw [e1] at ihh
      rw [retryAux_succ]
      simp [hok, ihh, List.range'_succ]

/-- C9: for the retry-queue path with attempt budget `n ≥ 1` and base sleep
`b`: the number of attempts made never exceeds `n`; when some attempt succeeds,
the first success at (0-indexed) attempt `j` is returned immediately after
`j + 1` attempts, with backoff sleeps `b·2⁰, …, b·2^(j-1)` after the failed
attempts; when every attempt fails, exactly `n` attempts are made, each but the
last followed by a sleep `b·2^i`, and the last observed outcome is returned. -/
theorem C9_retry_backoff_spec (once : Nat → RetryPending.Once) (n : Nat) (b : ℚ)
    (hn : 1 ≤ n) :
    (RetryPending.retry_check once n b).2.2 ≤ n ∧
    (∀ j, (List.range n).find? (fun i => (once i).ok) = some j →
      RetryPending.retry_check once n b =
        (once j, (List.range j).map (fun k => b * 2 ^ k), j + 1)) ∧
    ((List.range n).find? (fun i => (once i).ok) = none →
      RetryPending.retry_check once n b =
        (⟨false, (once (n - 1)).status, (once (n - 1)).final_url,
          (once (n - 1)).title⟩,
         (List.range (n - 1)).map (fun k => b * 2 ^ k), n)) := by
  have hsome : ∀ j, (List.range n).find? (fun i => (once i).ok) = some j →
      RetryPending.retry_check once n b =
        (once j, (List.range j).map (fun k => b * 2 ^ k), j + 1) := by
    intro j hf
    rw [List.range_eq_range'] at hf
    have h := retryAux_find_some once b n 0 ⟨false, none, "", ""⟩ j hf
    unfold RetryPending.retry_check
    rw [h]
    simp [List.range_eq_range']
  have hnone : (List.range n).find? (fun i => (once i).ok) = none →
      RetryPending.retry_check once n b =
        (⟨false, (once (n - 1)).status, (once (n - 1)).final_url,
          (once (n - 1)).title⟩,
         (List.range (n - 1)).map (fun k => b * 2 ^ k), n) := by
    intro hf
    rw [List.range_eq_range'] at hf
    have h := retryAux_find_none once b n 0 ⟨false, none, "", ""⟩ hf hn
    unfold RetryPending.retry_check
    rw [h]
    simp [List.range_eq_range']
  refine ⟨?_, hsome, hnone⟩
  rcases hf : (List.range n).find? (fun i => (once i).ok) with _ | j
  · rw [hnone hf]
  · have hj : j < n := List.mem_range.mp (List.mem_of_find?_eq_some hf)
    rw [hsome j hf]
    simpa using hj

/-- A concrete attempt oracle for the retry loop: the first attempt fails with
429, the second succeeds with 200. -/
def onceOracle : Nat → RetryPending.Once :=
  fun i =>
    if i = 1 then ⟨true, some 200, "https://a.example/x", ""⟩
    else ⟨false, some 429, "https://a.example/x", ""⟩

/-- Witness for `C9_retry_backoff_spec`: budget 3, base sleep 1, success on
the second attempt — one backoff sleep of `1·2⁰` happens and the success is
returned immediately after 2 attempts. -/
theorem C9_retry_backoff_spec_witness :
    RetryPending.retry_check onceOracle 3 1 =
      (⟨true, some 200, "https://a.example/x", ""⟩, [1], 2) := by
  have h := (C9_retry_backoff_spec onceOracle 3 1 (by decide)).2.1 1 (by decide)
  rw [h]
  have hr : List.range 1 = [0] := rfl
  norm_num [onceOracle, hr]

/-- C10: on every input string — empty, garbage, non-http schemes included —
both structural classifiers return normally (URL-parsing failures, modelled as
`none` from the parser, are mapped to `invalid_url_format`), and the result is
either `none` (accepted) or one of the fixed finite reason sets:
`clean_urls.py` uses {empty_url, invalid_url_format, blocked_domain,
invalid_host_pattern, root_or_listing_page}; `retry_pending_urls.py` uses
{empty_url, invalid_url_format, root_or_listing_page}. -/
theorem C10_classifier_total_and_closed (url : String) :
    (CleanUrls.static_reject_reason url = none ∨
      CleanUrls.static_reject_reason url ∈
        [some "empty_url", some "invalid_url_format", some "blocked_domain",
         some "invalid_host_pattern", some "root_or_listing_page"]) ∧
    (RetryPending.static_reject_reason url = none ∨
      RetryPending.static_reject_reason url ∈
        [some "empty_url", some "invalid_url_format", some "root_or_listing_page"]) := by
  constructor
  · unfold CleanUrls.static_reject_reason
    by_cases h0 : url = ""
    · simp [h0]
    rcases hp : parse_url url with _ | prepared
    · simp [h0, hp]
    rcases hs : (startsWithStr "http://" prepared || startsWithStr "https://" prepared)
    · simp [h0, hp, hs]
    rcases hb : BAD_DOMAINS.any fun tok => containsSubstr tok (lowerStr prepared)
    · rcases hh : matchesBadHostPattern (hostnameOfNetloc (splitUrl prepared).netloc)
      · rcases hr : matchesRootPattern
            (if (splitUrl prepared).pathPart = "" then "/"
             else (splitUrl prepared).pathPart)
        · simp [h0, hp, hs, hb, hh, hr]
        · simp [h0, hp, hs, hb, hh, hr]
      · simp [h0, hp, hs, hb, hh]
    · simp [h0, hp, hs, hb]
  · unfold RetryPending.static_reject_reason
    by_cases h0 : url = ""
    · simp [h0]
    rcases hp : urlparse url with _ | parts
    · simp [h0, hp]
    rcases hs : (parts.scheme == "http" || parts.scheme == "https")
    · simp [h0, hp, hs]
    rcases hr : matchesRootPattern (if parts.pathPart = "" then "/" else parts.pathPart)
    · simp [h0, hp, hs, hr]
    · simp [h0, hp, hs, hr]

end Collabowith
